import Mathlib

/-!
Shallow embedding of the teacherflow-api video-generation pipeline.

The Python sources are embedded as executable Lean definitions:

* `Main` models `src/main.py` (`process_video_job`: the job state machine,
  its `update_progress` checkpoints, the per-attempt render loop, its
  per-attempt temporary directory, and the exception paths).
* `GenerationUtils` models `src/videos/generation/generation_utils.py`
  (`render_single_scene`, the tail of `render_scenes_in_parallel`,
  `generate_and_render_video`'s try/finally resource lifecycle, and
  `concatenate_scenes`).
* `VideoUtils` models `src/videos/video_utils.py` (`concatenate_scenes`).
* `AiUtils` models `src/ai/ai_utils.py` (`generate_speech` with
  `MAX_RETRIES`/`RETRY_DELAY`) and `src/ai_utils.py` (the orphaned legacy
  variant of `generate_speech`).
* `StreamingUtils` models `src/videos/streaming/streaming_utils.py`
  (`get_video_file_response`, including Python `str.replace`,
  `str.split("-")` and `int()` on the range header).

External capabilities (the LLM code generators, the TTS service, the
`manim` renderer and the `ffmpeg` muxer) are passed in as oracle
parameters, mirroring how the Python code treats them as fallible calls.
Python exceptions are embedded as `Except`/`Option` results, and Python
`while` loops are embedded with explicit fuel equal to the loop bound.
-/

namespace TeacherFlow

/-- Job status enum, from `JobStatus` in `src/main.py` / `src/models.py`. -/
inductive JobStatus where
  | pending
  | in_progress
  | completed
  | failed
deriving DecidableEq, Repr

/-- The mutable part of a `JobMetadata` record that the pipeline writes:
`jobs[job_id].status` and `jobs[job_id].progress`. -/
structure JState where
  status : JobStatus
  progress : Nat
deriving DecidableEq, Repr

namespace Main

/-- Outcome of one iteration of the `while attempt <= max_retries` loop in
`process_video_job` (src/main.py lines 150-300), as decided by the external
calls made during that iteration:

* `noCode`: `generate_system_design` returned an empty string, so
  `raise HTTPException` fires before `update_progress(60)`;
* `noClassMatch`: no `class ...(Scene)` regex match, raised after
  `update_progress(60)`;
* `renderFail stderr`: the `manim` subprocess exited non-zero
  (`subprocess.CalledProcessError`), raised after `update_progress(70)`;
* `noVideoFound`: the subprocess succeeded but the output glob matched no
  file, raised after `update_progress(80)`;
* `success`: the attempt ran to the `return` statement. -/
inductive AttemptOutcome where
  | noCode
  | noClassMatch
  | renderFail (stderr : String)
  | noVideoFound
  | success
deriving Repr

/-- `max_retries = 2` (src/main.py line 130). -/
def max_retries : Nat := 2

/-- The observable trace of one run of `process_video_job`:

* `events`: every write of `(progress, status)` to `jobs[job_id]`, in
  program order (each `update_progress(p)` writes `(p, in_progress)`; the
  success epilogue writes `(100, completed)`; each failure handler writes
  `(0, failed)`);
* `escaped`: whether an exception propagated out of `process_video_job`
  (the outer `except` block ends in a bare `raise`);
* `tempCreated` / `tempRemoved`: how many per-attempt
  `tempfile.TemporaryDirectory()` contexts were entered / exited;
* `renders`: how many times the `manim` subprocess was run. -/
structure JobRun where
  events : List (Nat × JobStatus)
  escaped : Bool
  tempCreated : Nat
  tempRemoved : Nat
  renders : Nat
deriving Repr

/-- One fuel-indexed unfolding of the `while attempt <= max_retries` loop of
`process_video_job`.  `fuel` is the number of remaining permitted
iterations; the initial call uses `fuel = max_retries + 1 - attempt` so the
fuel never runs out before the loop's own exit conditions fire.  Each
failing iteration at `attempt = maxRetries` writes `(0, failed)` twice:
once in the attempt's own handler and once in the outer `except` block that
catches the re-raised `HTTPException` before the final bare `raise`. -/
def jobLoop (outcomes : Nat → AttemptOutcome) (maxRetries : Nat) :
    Nat → Nat → JobRun
  | _, 0 => ⟨[], false, 0, 0, 0⟩
  | attempt, fuel + 1 =>
    match outcomes attempt with
    | .success =>
      ⟨[(60, .in_progress), (70, .in_progress), (80, .in_progress),
        (90, .in_progress), (100, .completed)], false, 1, 1, 1⟩
    | .renderFail _ =>
      if attempt = maxRetries then
        ⟨[(60, .in_progress), (70, .in_progress), (0, .failed), (0, .failed)],
         true, 1, 1, 1⟩
      else
        let r := jobLoop outcomes maxRetries (attempt + 1) fuel
        ⟨(60, .in_progress) :: (70, .in_progress) :: r.events, r.escaped,
         r.tempCreated + 1, r.tempRemoved + 1, r.renders + 1⟩
    | .noVideoFound =>
      if attempt = maxRetries then
        ⟨[(60, .in_progress), (70, .in_progress), (80, .in_progress),
          (0, .failed), (0, .failed)], true, 1, 1, 1⟩
      else
        let r := jobLoop outcomes maxRetries (attempt + 1) fuel
        ⟨(60, .in_progress) :: (70, .in_progress) :: (80, .in_progress) :: r.events,
         r.escaped, r.tempCreated + 1, r.tempRemoved + 1, r.renders + 1⟩
    | .noClassMatch =>
      if attempt = maxRetries then
        ⟨[(60, .in_progress), (0, .failed), (0, .failed)], true, 0, 0, 0⟩
      else
        let r := jobLoop outcomes maxRetries (attempt + 1) fuel
        ⟨(60, .in_progress) :: r.events, r.escaped, r.tempCreated,
         r.tempRemoved, r.renders⟩
    | .noCode =>
      if attempt = maxRetries then
        ⟨[(0, .failed), (0, .failed)], true, 0, 0, 0⟩
      else
        let r := jobLoop outcomes maxRetries (attempt + 1) fuel
        ⟨r.events, r.escaped, r.tempCreated, r.tempRemoved, r.renders⟩

/-- `process_video_job` (src/main.py lines 107-315): writes the `20` and
`40` checkpoints, then runs the retry loop with `max_retries = 2`. -/
def process_video_job (outcomes : Nat → AttemptOutcome) : JobRun :=
  let r := jobLoop outcomes max_retries 0 (max_retries + 1)
  ⟨(20, .in_progress) :: (40, .in_progress) :: r.events, r.escaped,
   r.tempCreated, r.tempRemoved, r.renders⟩

/-- The job record after a sequence of writes: the last write wins; a job
starts as `(PENDING, 0)` when created by the `/generate-video` handler. -/
def finalState (es : List (Nat × JobStatus)) : JState :=
  match es.getLast? with
  | none => ⟨.pending, 0⟩
  | some e => ⟨e.2, e.1⟩

/-- The monotonicity property claimed by the spec, as a decidable check over
an event trace starting from progress `prev`: each write either does not
lower progress, or is a write that sets status `FAILED`. -/
def progressMonotoneOk (prev : Nat) : List (Nat × JobStatus) → Bool
  | [] => true
  | e :: rest =>
    (decide (prev ≤ e.1) || decide (e.2 = JobStatus.failed)) &&
      progressMonotoneOk e.1 rest

/-- The amended monotonicity property: each write either does not lower
progress, or resets progress to `0` together with status `FAILED`, or
resets progress to the `60` attempt-start checkpoint (status still
`IN_PROGRESS`) when a new render attempt begins. -/
def progressOkAmended (prev : Nat) : List (Nat × JobStatus) → Bool
  | [] => true
  | e :: rest =>
    (decide (prev ≤ e.1) ||
     (decide (e.2 = JobStatus.failed) && decide (e.1 = 0)) ||
     (decide (e.2 = JobStatus.in_progress) && decide (e.1 = 60))) &&
      progressOkAmended e.1 rest

end Main

namespace GenerationUtils

/-- Result of one `manim` subprocess run inside `render_single_scene`
(src/videos/generation/generation_utils.py lines 105-125): either the
process exited 0 and the scene-video glob found `videos` (possibly none),
or it exited non-zero with the given captured stderr. -/
inductive RenderOutcome where
  | ok (videos : List String)
  | fail (stderr : String)

/-- Observable of one run of `render_single_scene` for one scene:
`result` is `some` tagged `(videoPath, sceneIndex)` pairs on success and
`none` when the worker raised; `codesTried` lists, in order, the scene code
written to `scene_<i>.py` and rendered on each attempt. -/
structure SceneRun where
  result : Option (List (String × Nat))
  codesTried : List String
deriving DecidableEq, Repr

/-- The `while scene_attempt <= max_retries` loop of `render_single_scene`
(src/videos/generation/generation_utils.py lines 95-163), with fuel
`maxRetries + 1 - attempt`.  `render a c` is the outcome of the `manim`
subprocess for attempt `a` on code `c`; `retryGen c e` is
`retry_manim_scene_generation(current_code, e.stderr)`, `none` meaning it
returned a falsy value.  Faithful branch structure:

* non-zero exit at the last attempt re-raises (scene failed);
* otherwise the scene code is regenerated from the failing code and its
  stderr; a falsy regeneration raises `HTTPException`, which the outer
  `except Exception` handler catches and — not being the last attempt —
  retries with the unchanged code;
* zero exit with no matching video file raises at the last attempt and
  otherwise retries with the unchanged code;
* zero exit with videos returns them tagged with the scene index. -/
def renderSceneLoop (render : Nat → String → RenderOutcome)
    (retryGen : String → String → Option String) (sceneIdx maxRetries : Nat) :
    Nat → Nat → String → SceneRun
  | 0, _, _ => ⟨none, []⟩
  | fuel + 1, attempt, code =>
    match render attempt code with
    | .fail stderr =>
      if attempt = maxRetries then ⟨none, [code]⟩
      else
        match retryGen code stderr with
        | some fixed =>
          let r := renderSceneLoop render retryGen sceneIdx maxRetries fuel
            (attempt + 1) fixed
          ⟨r.result, code :: r.codesTried⟩
        | none =>
          let r := renderSceneLoop render retryGen sceneIdx maxRetries fuel
            (attempt + 1) code
          ⟨r.result, code :: r.codesTried⟩
    | .ok videos =>
      if videos = [] then
        if attempt = maxRetries then ⟨none, [code]⟩
        else
          let r := renderSceneLoop render retryGen sceneIdx maxRetries fuel
            (attempt + 1) code
          ⟨r.result, code :: r.codesTried⟩
      else ⟨some (videos.map fun v => (v, sceneIdx)), [code]⟩

/-- `render_single_scene` (src/videos/generation/generation_utils.py lines
76-165), entered with `scene_attempt = 0` and the initially generated
scene code. -/
def render_single_scene (render : Nat → String → RenderOutcome)
    (retryGen : String → String → Option String) (sceneIdx maxRetries : Nat)
    (scene_code : String) : SceneRun :=
  renderSceneLoop render retryGen sceneIdx maxRetries (maxRetries + 1) 0 scene_code

/-- Tail of `render_scenes_in_parallel` (src/videos/generation/
generation_utils.py lines 204-213): the workers' tagged result lists are
flattened in completion-gathering order, sorted by the scene-index tag
(Python `list.sort(key=...)` is a stable sort, embedded as `mergeSort`),
and the bare video paths are extracted. -/
def collect_rendered (results : List (List (String × Nat))) : List String :=
  let rendered_videos := results.foldl (fun acc r => acc ++ r) []
  (rendered_videos.mergeSort fun a b => decide (a.2 ≤ b.2)).map Prod.fst

/-- Which external steps of `generate_and_render_video` (src/videos/
generation/generation_utils.py lines 215-273) succeed: `generate_audio`,
`generate_manim_scenes` (non-empty scene list), `render_scenes_in_parallel`
(no worker raised), and the `ffmpeg` concat. -/
structure StepOutcomes where
  audioOk : Bool
  manimScenesOk : Bool
  renderOk : Bool
  concatOk : Bool
deriving DecidableEq, Repr

/-- Observable of one run of `GenerationUtils.generate_and_render_video`:
the returned filename or the propagated error, plus whether the
`shutil.rmtree` of the `tempfile.mkdtemp()` directory created by
`setup_directories` was executed before control left the function. -/
structure PipelineRun where
  result : Except String String
  tempDirRemoved : Bool
deriving Repr

/-- `generate_and_render_video` (src/videos/generation/generation_utils.py
lines 215-273).  The body runs inside `try ... finally
shutil.rmtree(temp_dir_path, ignore_errors=True)`; the embedding of
`try/finally` over `Except` runs the cleanup no matter which branch the
body took. -/
def generate_and_render_video (oc : StepOutcomes) (video_filename : String) :
    PipelineRun :=
  let body : Except String String :=
    if oc.audioOk = false then .error "audio generation failed"
    else if oc.manimScenesOk = false then
      .error "Failed to generate Manim scenes"
    else if oc.renderOk = false then .error "scene rendering failed"
    else if oc.concatOk = false then .error "ffmpeg concat failed"
    else .ok video_filename
  ⟨body, true⟩

/-- Observable of one `concatenate_scenes` call: the returned output path,
whether the external `ffmpeg` muxer process was spawned, the list of input
paths written to `concat.txt` (in order) when it was, and which single
input file was renamed (`shutil.move`) to the output when it was not. -/
structure ConcatRun where
  outputPath : String
  ffmpegInvoked : Bool
  concatList : List String
  renamedFrom : Option String
deriving DecidableEq, Repr

/-- `concatenate_scenes` (src/videos/generation/generation_utils.py lines
351-402): writes every input path to `concat.txt` and runs the `ffmpeg`
concat demuxer unconditionally, whatever the number of inputs. -/
def concatenate_scenes (rendered_videos : List String)
    (temp_dir_path video_filename : String) : ConcatRun :=
  ⟨temp_dir_path ++ "/" ++ video_filename, true, rendered_videos, none⟩

end GenerationUtils

namespace VideoUtils

/-- `concatenate_scenes` (src/videos/video_utils.py lines 230-328): with
more than one input it probes the inputs and runs one `ffmpeg`
filter-complex concat command; with a single input it just
`shutil.move`s that file to the output name and never spawns `ffmpeg`. -/
def concatenate_scenes (rendered_videos : List String)
    (temp_dir_path video_filename : String) : GenerationUtils.ConcatRun :=
  if rendered_videos.length > 1 then
    ⟨temp_dir_path ++ "/" ++ video_filename, true, rendered_videos, none⟩
  else
    ⟨temp_dir_path ++ "/" ++ video_filename, false, [], rendered_videos.head?⟩

end VideoUtils

namespace AiUtils

/-- `MAX_RETRIES = 2` (src/ai/ai_utils.py line 26 and src/ai_utils.py
line 21). -/
def MAX_RETRIES : Nat := 2

/-- `RETRY_DELAY = 0.2` seconds (src/ai/ai_utils.py line 27), in
milliseconds. -/
def RETRY_DELAY_MS : Nat := 200

/-- Observable of one `generate_speech` call: the returned boolean, the
number of times `client.audio.speech.create` was called, and the number of
`time.sleep(RETRY_DELAY)` backoffs executed. -/
structure SpeechRun where
  success : Bool
  synthCalls : Nat
  sleeps : Nat
deriving DecidableEq, Repr

/-- The `for attempt in range(MAX_RETRIES)` loop of `generate_speech`
(src/ai/ai_utils.py lines 99-126), with fuel `MAX_RETRIES - attempt`.
`synth a` is the outcome of the TTS call on iteration `a` (`none` = the
call raised); `writeOk a` tells whether streaming the returned bytes to
disk raised `IOError`.  A write failure is handled by the inner
`try/except IOError` and returns `False` at once; a synthesis failure
returns `False` on the last iteration and otherwise continues the loop,
sleeping `RETRY_DELAY` at the top of the next iteration. -/
def generateSpeechLoop (synth : Nat → Option (List Nat)) (writeOk : Nat → Bool) :
    Nat → Nat → SpeechRun
  | _, 0 => ⟨false, 0, 0⟩
  | attempt, fuel + 1 =>
    let sl := if 0 < attempt then 1 else 0
    match synth attempt with
    | some _bytes => if writeOk attempt then ⟨true, 1, sl⟩ else ⟨false, 1, sl⟩
    | none =>
      if attempt = MAX_RETRIES - 1 then ⟨false, 1, sl⟩
      else
        let r := generateSpeechLoop synth writeOk (attempt + 1) fuel
        ⟨r.success, r.synthCalls + 1, sl + r.sleeps⟩

/-- `generate_speech` (src/ai/ai_utils.py lines 91-126), the variant
imported by `src/audio/audio_utils.py` and hence used by the pipeline. -/
def generate_speech (synth : Nat → Option (List Nat)) (writeOk : Nat → Bool) :
    SpeechRun :=
  generateSpeechLoop synth writeOk 0 MAX_RETRIES

/-- Loop of the legacy `generate_speech` in the orphaned module
`src/ai_utils.py` (lines 96-119), which no other module imports: there is
no inner `try/except IOError`, so a disk-write failure is caught by the
generic `except Exception` and consumes a retry like a synthesis
failure. -/
def generateSpeechLegacyLoop (synth : Nat → Option (List Nat))
    (writeOk : Nat → Bool) : Nat → Nat → SpeechRun
  | _, 0 => ⟨false, 0, 0⟩
  | attempt, fuel + 1 =>
    let sl := if 0 < attempt then 1 else 0
    match synth attempt with
    | some _bytes =>
      if writeOk attempt then ⟨true, 1, sl⟩
      else if attempt = MAX_RETRIES - 1 then ⟨false, 1, sl⟩
      else
        let r := generateSpeechLegacyLoop synth writeOk (attempt + 1) fuel
        ⟨r.success, r.synthCalls + 1, sl + r.sleeps⟩
    | none =>
      if attempt = MAX_RETRIES - 1 then ⟨false, 1, sl⟩
      else
        let r := generateSpeechLegacyLoop synth writeOk (attempt + 1) fuel
        ⟨r.success, r.synthCalls + 1, sl + r.sleeps⟩

/-- Legacy `generate_speech` (src/ai_utils.py lines 88-119). -/
def generate_speech_legacy (synth : Nat → Option (List Nat))
    (writeOk : Nat → Bool) : SpeechRun :=
  generateSpeechLegacyLoop synth writeOk 0 MAX_RETRIES

end AiUtils

namespace StreamingUtils

/-- `VideoStreamResponse` (src/models.py lines 61-67). -/
structure VideoStreamResponse where
  content_type : String := "video/mp4"
  content_length : Int
  content_range : Option String := none
  accept_ranges : String := "bytes"
  status_code : Nat := 200
deriving DecidableEq, Repr

/-- The characters of the literal `"bytes="` removed from the range header
by `range_header.replace("bytes=", "")`. -/
def bytesPat : List Char := ['b', 'y', 't', 'e', 's', '=']

/-- If `pat` is a prefix of `l`, the remainder of `l` after it. -/
def dropPref : List Char → List Char → Option (List Char)
  | [], l => some l
  | _ :: _, [] => none
  | p :: ps, c :: cs => if p = c then dropPref ps cs else none

/-- Fuel-indexed left-to-right scan removing every (non-overlapping)
occurrence of `pat`, as Python `str.replace(pat, "")` does. -/
def removeAllAux (pat : List Char) : Nat → List Char → List Char
  | _, [] => []
  | 0, l => l
  | fuel + 1, c :: cs =>
    match dropPref pat (c :: cs) with
    | some rest => removeAllAux pat fuel rest
    | none => c :: removeAllAux pat fuel cs

/-- Python `l.replace(pat, "")` on the characters of a string. -/
def removeAll (pat l : List Char) : List Char :=
  removeAllAux pat l.length l

/-- Python `s.split("-")` on the characters of a string: splits at every
`'-'`, keeping empty components. -/
def splitDash : List Char → List (List Char)
  | [] => [[]]
  | c :: cs =>
    if c = '-' then [] :: splitDash cs
    else
      match splitDash cs with
      | [] => [[c]]
      | h :: t => (c :: h) :: t

/-- Value of a decimal digit string, most significant digit first. -/
def digitsVal (l : List Char) : Nat :=
  l.foldl (fun acc c => acc * 10 + (c.toNat - 48)) 0

/-- Strip leading and trailing space characters. -/
def trimSpaces (l : List Char) : List Char :=
  ((l.dropWhile fun c => c = ' ').reverse.dropWhile fun c => c = ' ').reverse

/-- Python `int(s)` on the characters of a decimal string: strips
surrounding whitespace, allows one leading sign, then requires a non-empty
run of digits; `none` models the `ValueError` it raises otherwise. -/
def pyIntChars (l : List Char) : Option Int :=
  let t := trimSpaces l
  if t.headD ' ' = '-' then
    if t.tail ≠ [] ∧ t.tail.all Char.isDigit then
      some (-(digitsVal t.tail : Int))
    else none
  else if t.headD ' ' = '+' then
    if t.tail ≠ [] ∧ t.tail.all Char.isDigit then some (digitsVal t.tail : Int)
    else none
  else if t ≠ [] ∧ t.all Char.isDigit then some (digitsVal t : Int)
  else none

/-- The `try` block of `get_video_file_response` (src/videos/streaming/
streaming_utils.py lines 29-36): strip `"bytes="`, split on `"-"`, parse
`start` (empty component defaults to `0`) and `end` (missing or empty
component defaults to `file_size - 1`), then bounds-check.  `none` models
the `ValueError`/`IndexError` path that the `except` clause turns into
HTTP 416. -/
def parseRangeHeader (file_size : Nat) (header : List Char) : Option (Int × Int) :=
  let ranges := splitDash (removeAll bytesPat header)
  let r0 := ranges.headD []
  let startO : Option Int := if r0 = [] then some 0 else pyIntChars r0
  let endO : Option Int :=
    match ranges[1]? with
    | some r1 => if r1 = [] then some ((file_size : Int) - 1) else pyIntChars r1
    | none => some ((file_size : Int) - 1)
  match startO, endO with
  | some s0, some e0 =>
    if (file_size : Int) ≤ s0 ∨ s0 < 0 ∨ (file_size : Int) ≤ e0 ∨ e0 < s0 then
      none
    else some (s0, e0)
  | _, _ => none

/-- `get_video_file_response` (src/videos/streaming/streaming_utils.py
lines 6-46).  The header is given as its character list; `.error s` models
`raise HTTPException(status_code=s)`. -/
def get_video_file_response (fileExists : Bool) (file_size : Nat)
    (range_header : Option (List Char)) : Except Nat VideoStreamResponse :=
  if fileExists = false then .error 404
  else
    match range_header with
    | none => .ok { content_length := (file_size : Int), status_code := 200 }
    | some h =>
      match parseRangeHeader file_size h with
      | none => .error 416
      | some (s0, e0) =>
        .ok { content_length := e0 - s0 + 1,
              content_range := some ("bytes " ++ toString s0 ++ "-" ++
                toString e0 ++ "/" ++ toString file_size),
              status_code := 206 }

end StreamingUtils

/-- `max_retries = 2` (src/videos/generation/generation_utils.py line 225),
the per-scene retry bound handed to `render_single_scene`. -/
def GenerationUtils.max_retries : Nat := 2

section MainLemmas

open Main

/-- Every event trace produced by the retry loop satisfies the amended
progress discipline, whatever the starting progress value. -/
lemma jobLoop_progressOk (outcomes : Nat → AttemptOutcome) (mr : Nat) :
    ∀ fuel attempt prev,
      progressOkAmended prev (jobLoop outcomes mr attempt fuel).events = true := by
  intro fuel
  induction fuel with
  | zero => intro attempt prev; simp [jobLoop, progressOkAmended]
  | succ fuel ih =>
    intro attempt prev
    cases h : outcomes attempt with
    | success => simp [jobLoop, h, progressOkAmended]
    | renderFail stderr =>
      by_cases hat : attempt = mr
      · subst hat; simp [jobLoop, h, progressOkAmended]
      · simp [jobLoop, h, hat, progressOkAmended, ih]
    | noVideoFound =>
      by_cases hat : attempt = mr
      · subst hat; simp [jobLoop, h, progressOkAmended]
      · simp [jobLoop, h, hat, progressOkAmended, ih]
    | noClassMatch =>
      by_cases hat : attempt = mr
      · subst hat; simp [jobLoop, h, progressOkAmended]
      · simp [jobLoop, h, hat, progressOkAmended, ih]
    | noCode =>
      by_cases hat : attempt = mr
      · subst hat; simp [jobLoop, h, progressOkAmended]
      · simp [jobLoop, h, hat, ih]

/-- Dropping a leading write does not change the final job state when later
writes exist. -/
lemma finalState_cons (a : Nat × JobStatus) {es : List (Nat × JobStatus)}
    (h : es ≠ []) : finalState (a :: es) = finalState es := by
  rcases es with _ | ⟨b, t⟩
  · exact absurd rfl h
  · simp [finalState]

/-- On every run of the retry loop that starts within its fuel budget, the
trace is non-empty, an escaped exception leaves the job record at
`(FAILED, 0)`, and a normal return leaves it at `(COMPLETED, 100)`. -/
lemma jobLoop_final (outcomes : Nat → AttemptOutcome) (mr : Nat) :
    ∀ fuel attempt, attempt + fuel = mr + 1 → attempt ≤ mr →
      (jobLoop outcomes mr attempt fuel).events ≠ [] ∧
      ((jobLoop outcomes mr attempt fuel).escaped = true →
        finalState (jobLoop outcomes mr attempt fuel).events = ⟨.failed, 0⟩) ∧
      ((jobLoop outcomes mr attempt fuel).escaped = false →
        finalState (jobLoop outcomes mr attempt fuel).events = ⟨.completed, 100⟩) := by
  intro fuel
  induction fuel with
  | zero => intro attempt h1 h2; omega
  | succ fuel ih =>
    intro attempt h1 h2
    cases h : outcomes attempt with
    | success => simp [jobLoop, h, finalState]
    | renderFail stderr =>
      by_cases hat : attempt = mr
      · subst hat; simp [jobLoop, h, finalState]
      · have hih := ih (attempt + 1) (by omega) (by omega)
        simp only [jobLoop, h, if_neg hat]
        refine ⟨by simp, ?_, ?_⟩ <;> intro hesc <;>
          rw [finalState_cons _ (by simp),
              finalState_cons _ hih.1]
        · exact hih.2.1 hesc
        · exact hih.2.2 hesc
    | noVideoFound =>
      by_cases hat : attempt = mr
      · subst hat; simp [jobLoop, h, finalState]
      · have hih := ih (attempt + 1) (by omega) (by omega)
        simp only [jobLoop, h, if_neg hat]
        refine ⟨by simp, ?_, ?_⟩ <;> intro hesc <;>
          rw [finalState_cons _ (by simp),
              finalState_cons _ (by simp),
              finalState_cons _ hih.1]
        · exact hih.2.1 hesc
        · exact hih.2.2 hesc
    | noClassMatch =>
      by_cases hat : attempt = mr
      · subst hat; simp [jobLoop, h, finalState]
      · have hih := ih (attempt + 1) (by omega) (by omega)
        simp only [jobLoop, h, if_neg hat]
        refine ⟨by simp [hih.1], ?_, ?_⟩ <;> intro hesc <;>
          rw [finalState_cons _ hih.1]
        · exact hih.2.1 hesc
        · exact hih.2.2 hesc
    | noCode =>
      by_cases hat : attempt = mr
      · subst hat; simp [jobLoop, h, finalState]
      · have hih := ih (attempt + 1) (by omega) (by omega)
        simp only [jobLoop, h, if_neg hat]
        exact hih

/-- The retry loop exits every per-attempt `tempfile.TemporaryDirectory()`
context it enters. -/
lemma jobLoop_temp (outcomes : Nat → AttemptOutcome) (mr : Nat) :
    ∀ fuel attempt,
      (jobLoop outcomes mr attempt fuel).tempCreated =
        (jobLoop outcomes mr attempt fuel).tempRemoved := by
  intro fuel
  induction fuel with
  | zero => intro attempt; simp [jobLoop]
  | succ fuel ih =>
    intro attempt
    cases h : outcomes attempt with
    | success => simp [jobLoop, h]
    | renderFail stderr =>
      rcases eq_or_ne attempt mr with hat | hat
      · subst hat; simp [jobLoop, h]
      · simp [jobLoop, h, hat, ih]
    | noVideoFound =>
      rcases eq_or_ne attempt mr with hat | hat
      · subst hat; simp [jobLoop, h]
      · simp [jobLoop, h, hat, ih]
    | noClassMatch =>
      rcases eq_or_ne attempt mr with hat | hat
      · subst hat; simp [jobLoop, h]
      · simp [jobLoop, h, hat, ih]
    | noCode =>
      rcases eq_or_ne attempt mr with hat | hat
      · subst hat; simp [jobLoop, h]
      · simp [jobLoop, h, hat, ih]

end MainLemmas

/-- C1: for every scene whose render attempt fails on every try (an
arbitrary family `err` of captured stderr texts) and every successful
regeneration function `fix`, the per-scene retry loop of
`render_single_scene` performs exactly `max_retries + 1 = 3` render
attempts — the codes it renders are exactly the three-element chain in
which each attempt after the first renders `fix` of the previous attempt's
code and that attempt's captured error text — and then the scene fails
(`result = none`); correspondingly, `process_video_job` under
always-failing renders performs exactly `max_retries + 1 = 3` render
attempts, the exception escapes, and the job record ends at
`(FAILED, 0)`. -/
theorem c1_scene_retry_exact_attempts (err : Nat → String → String)
    (fix : String → String → String) (sceneIdx : Nat) (c0 : String)
    (stderrs : Nat → String) :
    GenerationUtils.render_single_scene
        (fun a c => .fail (err a c)) (fun c e => some (fix c e))
        sceneIdx GenerationUtils.max_retries c0 =
      ⟨none, [c0, fix c0 (err 0 c0),
              fix (fix c0 (err 0 c0)) (err 1 (fix c0 (err 0 c0)))]⟩ ∧
    (GenerationUtils.render_single_scene
        (fun a c => .fail (err a c)) (fun c e => some (fix c e))
        sceneIdx GenerationUtils.max_retries c0).codesTried.length =
      GenerationUtils.max_retries + 1 ∧
    (Main.process_video_job fun n => .renderFail (stderrs n)).renders =
      Main.max_retries + 1 ∧
    Main.finalState (Main.process_video_job fun n =>
      .renderFail (stderrs n)).events = ⟨.failed, 0⟩ :=
  ⟨rfl, rfl, rfl, rfl⟩

/-- C2 counterexample: on the run whose first render attempt fails and
whose second succeeds, the job's progress goes `... 70, 60 ...` while the
status stays `IN_PROGRESS`, so the claimed invariant — progress only ever
lowered on a transition to `FAILED` — is false for this trace. -/
theorem c2_progress_monotone_counterexample :
    Main.progressMonotoneOk 0 (Main.process_video_job fun n =>
      if n = 0 then .renderFail "ManimError" else .success).events = false ∧
    (Main.process_video_job fun n =>
      if n = 0 then .renderFail "ManimError" else .success).events =
      [(20, .in_progress), (40, .in_progress), (60, .in_progress),
       (70, .in_progress), (60, .in_progress), (70, .in_progress),
       (80, .in_progress), (90, .in_progress), (100, .completed)] :=
  ⟨rfl, rfl⟩

/-- C2 amended: on every run of `process_video_job`, every job-record write
either does not lower progress, or lowers it to `0` while setting status
`FAILED`, or lowers it to the attempt-start checkpoint `60` (status still
`IN_PROGRESS`) when a retry of a failed render attempt begins. -/
theorem c2_progress_monotone_amended (outcomes : Nat → Main.AttemptOutcome) :
    Main.progressOkAmended 0 (Main.process_video_job outcomes).events = true := by
  have h := jobLoop_progressOk outcomes Main.max_retries
    (Main.max_retries + 1) 0 40
  simpa [Main.process_video_job, Main.progressOkAmended] using h

/-- C4 counterexample: on the run where every render attempt fails, the job
record does end at `(FAILED, 0)`, but the final bare `raise` in the outer
`except` block lets the exception escape `process_video_job`, so the
claim's "no exception escapes the background task uncaught" is false. -/
theorem c4_failure_state_counterexample :
    (Main.process_video_job fun _ => .renderFail "ManimError").escaped = true ∧
    Main.finalState (Main.process_video_job fun _ =>
      .renderFail "ManimError").events = ⟨.failed, 0⟩ :=
  ⟨rfl, rfl⟩

/-- C4 amended: on every run of `process_video_job`, an exception escapes
the background task exactly when some step failed the job, and in that case
the job record ends with status `FAILED` and progress `0` (set before the
re-raise); a run with no escaped exception ends at `(COMPLETED, 100)`. -/
theorem c4_failure_state_amended (outcomes : Nat → Main.AttemptOutcome) :
    ((Main.process_video_job outcomes).escaped = true →
      Main.finalState (Main.process_video_job outcomes).events =
        ⟨.failed, 0⟩) ∧
    ((Main.process_video_job outcomes).escaped = false →
      Main.finalState (Main.process_video_job outcomes).events =
        ⟨.completed, 100⟩) := by
  have h := jobLoop_final outcomes Main.max_retries (Main.max_retries + 1) 0
    (by simp [Main.max_retries]) (by simp [Main.max_retries])
  constructor <;> intro hesc <;>
    [exact (finalState_cons _ (by simp [h.1])).trans
      ((finalState_cons _ h.1).trans (h.2.1 hesc));
     exact (finalState_cons _ (by simp [h.1])).trans
      ((finalState_cons _ h.1).trans (h.2.2 hesc))]

/-- C4 amended witness: concrete all-failing run. -/
theorem c4_failure_state_amended_witness :
    Main.finalState (Main.process_video_job fun _ =>
      .renderFail "CompileError").events = ⟨.failed, 0⟩ :=
  (c4_failure_state_amended fun _ => .renderFail "CompileError").1 rfl

/-- C5: on every exit path — success, any explicit error branch, and any
step raising an unexpected exception — the video-generation pipeline
removes the temporary directories it created before returning or
propagating: `GenerationUtils.generate_and_render_video` always executes
its `finally shutil.rmtree`, and `process_video_job` exits every
per-attempt `tempfile.TemporaryDirectory()` context it enters. -/
theorem c5_tempdir_cleanup (oc : GenerationUtils.StepOutcomes)
    (video_filename : String) (outcomes : Nat → Main.AttemptOutcome) :
    (GenerationUtils.generate_and_render_video oc video_filename).tempDirRemoved
      = true ∧
    (Main.process_video_job outcomes).tempCreated =
      (Main.process_video_job outcomes).tempRemoved := by
  refine ⟨rfl, ?_⟩
  have h := jobLoop_temp outcomes Main.max_retries (Main.max_retries + 1) 0
  simpa [Main.process_video_job] using h

/-- C8 (code bug): `GenerationUtils.concatenate_scenes` invokes the
`ffmpeg` concat muxer even for a single rendered segment, contradicting
both its own docstring ("If only one video exists, it will be renamed to
the desired filename") and the claim; the `VideoUtils.concatenate_scenes`
variant does behave as claimed, renaming the single segment without
spawning `ffmpeg` and invoking `ffmpeg` only for two or more segments. -/
theorem c8_single_segment_code_bug :
    (GenerationUtils.concatenate_scenes ["scene1.mp4"] "/tmp/t"
      "out.mp4").ffmpegInvoked = true ∧
    (VideoUtils.concatenate_scenes ["scene1.mp4"] "/tmp/t"
      "out.mp4").ffmpegInvoked = false ∧
    (VideoUtils.concatenate_scenes ["scene1.mp4"] "/tmp/t"
      "out.mp4").renamedFrom = some "scene1.mp4" ∧
    (VideoUtils.concatenate_scenes ["a.mp4", "b.mp4"] "/tmp/t"
      "out.mp4").ffmpegInvoked = true := by
  refine ⟨rfl, ?_, ?_, ?_⟩ <;> simp [VideoUtils.concatenate_scenes]

/-- Unfolding of one iteration of the `generate_speech` retry loop. -/
lemma gsLoop_succ (synth : Nat → Option (List Nat)) (writeOk : Nat → Bool)
    (attempt fuel : Nat) :
    AiUtils.generateSpeechLoop synth writeOk attempt (fuel + 1) =
      (let sl := if 0 < attempt then 1 else 0
       match synth attempt with
       | some _bytes =>
         if writeOk attempt then ⟨true, 1, sl⟩ else ⟨false, 1, sl⟩
       | none =>
         if attempt = AiUtils.MAX_RETRIES - 1 then ⟨false, 1, sl⟩
         else
           let r := AiUtils.generateSpeechLoop synth writeOk (attempt + 1) fuel
           ⟨r.success, r.synthCalls + 1, sl + r.sleeps⟩) := rfl

/-- C6 counterexample: with the synthesis call failing on every attempt,
`generate_speech` makes exactly 2 synthesis calls with a single 200 ms
backoff — not the 3 total attempts (2 retries) the claim states: the loop
is `for attempt in range(MAX_RETRIES)` with `MAX_RETRIES = 2`, so
`MAX_RETRIES` bounds total attempts, not retries.  The orphaned legacy
variant in `src/ai_utils.py` has the same loop bound. -/
theorem c6_speech_retry_counterexample :
    AiUtils.generate_speech (fun _ => none) (fun _ => true) = ⟨false, 2, 1⟩ ∧
    AiUtils.generate_speech_legacy (fun _ => none) (fun _ => true) =
      ⟨false, 2, 1⟩ ∧
    (2 : Nat) ≠ 3 :=
  ⟨rfl, rfl, by decide⟩

/-- C6 amended: for every narration text, `generate_speech` makes at most
`MAX_RETRIES = 2` total synthesis attempts (one retry), and when every
synthesis call fails it gives up and reports failure after exactly 2
attempts separated by a single fixed backoff of `RETRY_DELAY` = 200 ms. -/
theorem c6_speech_retry_amended (synth : Nat → Option (List Nat))
    (writeOk : Nat → Bool) :
    (AiUtils.generate_speech synth writeOk).synthCalls ≤ AiUtils.MAX_RETRIES ∧
    ((∀ a, synth a = none) →
      AiUtils.generate_speech synth writeOk = ⟨false, AiUtils.MAX_RETRIES, 1⟩ ∧
      (AiUtils.generate_speech synth writeOk).sleeps * AiUtils.RETRY_DELAY_MS
        = 200) := by
  have u : AiUtils.generate_speech synth writeOk =
      AiUtils.generateSpeechLoop synth writeOk 0 (1 + 1) := rfl
  constructor
  · rw [u, gsLoop_succ]
    rcases hs0 : synth 0 with _ | b
    · rw [gsLoop_succ synth writeOk 1 0]
      rcases hs1 : synth 1 with _ | b <;> cases hw1 : writeOk 1 <;>
        simp [hs0, hs1, hw1, AiUtils.MAX_RETRIES]
    · cases hw0 : writeOk 0 <;> simp [hs0, hw0, AiUtils.MAX_RETRIES]
  · intro hall
    rw [u, gsLoop_succ, gsLoop_succ synth writeOk 1 0]
    simp [hall 0, hall 1, AiUtils.MAX_RETRIES, AiUtils.RETRY_DELAY_MS]

/-- C6 amended witness: the always-failing synthesis oracle. -/
theorem c6_speech_retry_amended_witness :
    AiUtils.generate_speech (fun _ => none) (fun _ => false) =
      ⟨false, AiUtils.MAX_RETRIES, 1⟩ :=
  ((c6_speech_retry_amended (fun _ => none) (fun _ => false)).2
    fun _ => rfl).1

/-- C7: in the pipeline's `generate_speech` (src/ai/ai_utils.py), a
synthesis call that succeeds followed by an `IOError` while writing the
audio bytes to disk returns `False` immediately for that invocation: no
further synthesis attempt is made and no retry backoff is slept, whether
the write failure happens on the first attempt (1 synthesis call total) or
on the retry attempt (2 synthesis calls total, both triggered by synthesis
failures only). -/
theorem c7_write_failure_no_retry (synth₁ synth₂ : Nat → Option (List Nat))
    (w₁ w₂ : Nat → Bool) (b₁ b₂ : List Nat)
    (h1 : synth₁ 0 = some b₁) (hw1 : w₁ 0 = false)
    (h2 : synth₂ 0 = none) (h2b : synth₂ 1 = some b₂) (hw2 : w₂ 1 = false) :
    AiUtils.generate_speech synth₁ w₁ = ⟨false, 1, 0⟩ ∧
    AiUtils.generate_speech synth₂ w₂ = ⟨false, 2, 1⟩ := by
  constructor
  · have u : AiUtils.generate_speech synth₁ w₁ =
        AiUtils.generateSpeechLoop synth₁ w₁ 0 (1 + 1) := rfl
    rw [u, gsLoop_succ]
    simp [h1, hw1]
  · have u : AiUtils.generate_speech synth₂ w₂ =
        AiUtils.generateSpeechLoop synth₂ w₂ 0 (1 + 1) := rfl
    rw [u, gsLoop_succ, gsLoop_succ synth₂ w₂ 1 0]
    simp [h2, h2b, hw2, AiUtils.MAX_RETRIES]

/-- C7 witness: concrete oracles with a successful synthesis whose disk
write fails, at each of the two possible attempt positions. -/
theorem c7_write_failure_no_retry_witness :
    AiUtils.generate_speech (fun _ => some [7]) (fun _ => false) =
      ⟨false, 1, 0⟩ ∧
    AiUtils.generate_speech (fun a => if a = 0 then none else some [7])
      (fun _ => false) = ⟨false, 2, 1⟩ :=
  c7_write_failure_no_retry _ _ _ _ [7] [7] rfl rfl rfl rfl rfl

/-- Folding `++` over a list of lists is flattening (the `extend` loop in
`render_scenes_in_parallel`). -/
lemma foldl_append_eq_flatten {α : Type} (l : List (List α)) :
    ∀ acc : List α, l.foldl (fun a r => a ++ r) acc = acc ++ l.flatten := by
  induction l with
  | nil => intro acc; simp
  | cons h t ih => intro acc; simp [ih]

/-- A permutation of a list whose keys are strictly increasing that is
itself sorted by key is that list: sorting by a discriminating key has a
unique result. -/
lemma sorted_key_unique : ∀ {l₁ l₂ : List (String × Nat)}, List.Perm l₁ l₂ →
    l₁.Pairwise (fun a b => a.2 < b.2) →
    l₂.Pairwise (fun a b => a.2 ≤ b.2) → l₂ = l₁ := by
  intro l₁
  induction l₁ with
  | nil => intro l₂ hp _ _; exact hp.symm.eq_nil
  | cons a t ih =>
    intro l₂ hp h₁ h₂
    rcases l₂ with _ | ⟨b, t₂⟩
    · exact absurd hp.eq_nil (by simp)
    · have hb : b ∈ a :: t := hp.mem_iff.mpr (List.mem_cons_self b t₂)
      rcases List.mem_cons.mp hb with hba | hbt
      · subst hba
        have ht : List.Perm t t₂ := hp.cons_inv
        have := ih ht (List.pairwise_cons.mp h₁).2 (List.pairwise_cons.mp h₂).2
        rw [this]
      · have hab : a.2 < b.2 := List.rel_of_pairwise_cons h₁ hbt
        have ha : a ∈ b :: t₂ := hp.mem_iff.mp (List.mem_cons_self a t)
        rcases List.mem_cons.mp ha with hab' | hat₂
        · rw [hab'] at hab; omega
        · have hba : b.2 ≤ a.2 := List.rel_of_pairwise_cons h₂ hat₂
          omega

/-- C3: whatever order the parallel scene workers complete in — any
`results` whose flattening is any permutation of one tagged segment
`(paths i, i)` per scene `i < n` — the segment list handed to assembly by
`render_scenes_in_parallel` is `paths 0, paths 1, ..., paths (n-1)`: the
original scene order, recovered by sorting on the `sceneIndex` tag, never
alphabetical filename order and never completion order. -/
theorem c3_assembly_order (n : Nat) (paths : Nat → String)
    (results : List (List (String × Nat)))
    (hperm : List.Perm results.flatten
      ((List.range n).map fun i => (paths i, i))) :
    GenerationUtils.collect_rendered results = (List.range n).map paths := by
  have hflat : results.foldl (fun a r => a ++ r) [] = results.flatten := by
    simpa using foldl_append_eq_flatten results []
  simp only [GenerationUtils.collect_rendered]
  rw [hflat]
  have hperm2 : List.Perm
      (results.flatten.mergeSort fun a b => decide (a.2 ≤ b.2))
      ((List.range n).map fun i => (paths i, i)) :=
    (List.mergeSort_perm results.flatten _).trans hperm
  have hcan : ((List.range n).map fun i => (paths i, i)).Pairwise
      fun a b => a.2 < b.2 := by
    rw [List.pairwise_map]
    exact List.pairwise_lt_range n
  have hsortedB : (results.flatten.mergeSort fun a b => decide (a.2 ≤ b.2)).Pairwise
      (fun a b => decide (a.2 ≤ b.2) = true) :=
    List.sorted_mergeSort
      (fun a b c h1 h2 => by simp_all; omega)
      (fun a b => by simpa using Nat.le_total a.2 b.2)
      results.flatten
  have hsorted : (results.flatten.mergeSort fun a b => decide (a.2 ≤ b.2)).Pairwise
      fun a b => a.2 ≤ b.2 := hsortedB.imp fun hab => by simpa using hab
  rw [sorted_key_unique hperm2.symm hcan hsorted]
  simp [List.map_map, Function.comp]

/-- C3 witness: three scenes completing in the order 1, 2, 0 are still
assembled as scene 0, 1, 2. -/
theorem c3_assembly_order_witness :
    List.Perm
      ([[("b.mp4", 1)], [("c.mp4", 2)], [("a.mp4", 0)]] :
        List (List (String × Nat))).flatten
      ((List.range 3).map fun i =>
        ((if i = 0 then "a.mp4" else if i = 1 then "b.mp4" else "c.mp4"), i)) ∧
    GenerationUtils.collect_rendered
        [[("b.mp4", 1)], [("c.mp4", 2)], [("a.mp4", 0)]] =
      ["a.mp4", "b.mp4", "c.mp4"] :=
  ⟨by decide, by
    have h := c3_assembly_order 3
      (fun i => if i = 0 then "a.mp4" else if i = 1 then "b.mp4" else "c.mp4")
      [[("b.mp4", 1)], [("c.mp4", 2)], [("a.mp4", 0)]] (by decide)
    rw [h]; decide⟩

section StreamingLemmas

open StreamingUtils

/-- A digit character differs from any non-digit character. -/
lemma isDigit_ne {c d : Char} (hc : c.isDigit = true) (hd : d.isDigit = false) :
    c ≠ d := by
  intro h
  rw [h, hd] at hc
  simp at hc

/-- Removing a pattern that is a prefix uncovers the tail. -/
lemma dropPref_append : ∀ p l : List Char, dropPref p (p ++ l) = some l
  | [], _ => rfl
  | c :: ps, l => by simp [dropPref, dropPref_append ps l]

/-- The scan for `"bytes="` leaves a `'b'`-free string unchanged. -/
lemma removeAllAux_no_b {l : List Char} (h : ∀ c ∈ l, c ≠ 'b') :
    ∀ fuel, removeAllAux bytesPat fuel l = l := by
  induction l with
  | nil => intro fuel; cases fuel <;> rfl
  | cons c cs ih =>
    intro fuel
    cases fuel with
    | zero => rfl
    | succ fuel =>
      have hbc : ('b' : Char) ≠ c := Ne.symm (h c (List.mem_cons_self c cs))
      have hdp : dropPref bytesPat (c :: cs) = none := by
        simp [bytesPat, dropPref, hbc]
      simp [removeAllAux, hdp,
        ih fun d hd => h d (List.mem_cons_of_mem c hd)]

/-- `"bytes=...".replace("bytes=", "")` drops the prefix and leaves a
`'b'`-free remainder unchanged. -/
lemma removeAll_bytesPat_append {l : List Char} (h : ∀ c ∈ l, c ≠ 'b') :
    removeAll bytesPat (bytesPat ++ l) = l := by
  show removeAllAux bytesPat (bytesPat ++ l).length (bytesPat ++ l) = l
  have hlen : (bytesPat ++ l).length = l.length + 5 + 1 := by
    simp [bytesPat]
  rw [hlen, show bytesPat ++ l = 'b' :: ('y' :: 't' :: 'e' :: 's' :: '=' :: l)
    from rfl]
  simp only [removeAllAux]
  rw [show dropPref bytesPat ('b' :: ('y' :: 't' :: 'e' :: 's' :: '=' :: l)) =
    some l from dropPref_append bytesPat l]
  exact removeAllAux_no_b h _

/-- Splitting a dash-free string on `'-'` yields one component. -/
lemma splitDash_no_dash {l : List Char} (h : ∀ c ∈ l, c ≠ '-') :
    splitDash l = [l] := by
  induction l with
  | nil => rfl
  | cons c cs ih =>
    have hc : c ≠ '-' := h c (List.mem_cons_self c cs)
    simp [splitDash, hc, ih fun d hd => h d (List.mem_cons_of_mem c hd)]

/-- Splitting at the first dash after a dash-free component. -/
lemma splitDash_append_dash {a : List Char} (b : List Char)
    (h : ∀ c ∈ a, c ≠ '-') :
    splitDash (a ++ '-' :: b) = a :: splitDash b := by
  induction a with
  | nil => simp [splitDash]
  | cons c cs ih =>
    have hc : c ≠ '-' := h c (List.mem_cons_self c cs)
    have ih' := ih fun d hd => h d (List.mem_cons_of_mem c hd)
    simp [splitDash, hc, ih']

/-- `dropWhile` of a predicate false everywhere is the identity. -/
lemma dropWhile_eq_self_of {p : Char → Bool} {l : List Char}
    (h : ∀ c ∈ l, p c = false) : l.dropWhile p = l := by
  cases l with
  | nil => rfl
  | cons c cs => simp [List.dropWhile_cons, h c (List.mem_cons_self c cs)]

/-- Trimming does not change a space-free string. -/
lemma trimSpaces_eq_self {l : List Char} (h : ∀ c ∈ l, c ≠ ' ') :
    trimSpaces l = l := by
  have h1 : l.dropWhile (fun c => c = ' ') = l :=
    dropWhile_eq_self_of fun c hc => by simp [h c hc]
  have h2 : l.reverse.dropWhile (fun c => c = ' ') = l.reverse :=
    dropWhile_eq_self_of fun c hc => by simp [h c (List.mem_reverse.mp hc)]
  rw [trimSpaces, h1, h2, List.reverse_reverse]

/-- Python `int()` on a non-empty digit string returns its value. -/
lemma pyIntChars_digits {l : List Char} (hne : l ≠ [])
    (hd : ∀ c ∈ l, c.isDigit = true) :
    pyIntChars l = some (digitsVal l : Int) := by
  have hsp : ∀ c ∈ l, c ≠ ' ' := fun c hc => isDigit_ne (hd c hc) (by decide)
  have ht : trimSpaces l = l := trimSpaces_eq_self hsp
  rcases l with _ | ⟨c, cs⟩
  · exact absurd rfl hne
  · have hc := hd c (List.mem_cons_self c cs)
    have hcm : c ≠ '-' := isDigit_ne hc (by decide)
    have hcp : c ≠ '+' := isDigit_ne hc (by decide)
    simp only [pyIntChars, ht, List.headD_cons]
    rw [if_neg hcm, if_neg hcp, if_pos]
    exact ⟨List.cons_ne_nil c cs, by rw [List.all_eq_true]; exact hd⟩

/-- Unfolding of `get_video_file_response` on an existing file and a
present range header. -/
lemma get_video_file_response_some (file_size : Nat) (h : List Char) :
    get_video_file_response true file_size (some h) =
      (match parseRangeHeader file_size h with
       | none => .error 416
       | some (s0, e0) =>
         .ok { content_length := e0 - s0 + 1,
               content_range := some ("bytes " ++ toString s0 ++ "-" ++
                 toString e0 ++ "/" ++ toString file_size),
               status_code := 206 }) := rfl

/-- Parse of a two-component digit range `bytes=c1-c2`. -/
lemma parseRangeHeader_two (file_size : Nat) {c1 c2 : List Char}
    (h1 : c1 ≠ []) (hd1 : ∀ c ∈ c1, c.isDigit = true)
    (h2 : c2 ≠ []) (hd2 : ∀ c ∈ c2, c.isDigit = true) :
    parseRangeHeader file_size (bytesPat ++ (c1 ++ '-' :: c2)) =
      if (file_size : Int) ≤ (digitsVal c1 : Int) ∨
         ((digitsVal c1 : Int)) < 0 ∨
         (file_size : Int) ≤ (digitsVal c2 : Int) ∨
         ((digitsVal c2 : Int)) < ((digitsVal c1 : Int)) then none
      else some ((digitsVal c1 : Int), (digitsVal c2 : Int)) := by
  have hnd1 : ∀ c ∈ c1, c ≠ '-' := fun c hc =>
    isDigit_ne (hd1 c hc) (by decide)
  have hnd2 : ∀ c ∈ c2, c ≠ '-' := fun c hc =>
    isDigit_ne (hd2 c hc) (by decide)
  have hnb : ∀ c ∈ c1 ++ '-' :: c2, c ≠ 'b' := by
    intro c hc
    rcases List.mem_append.mp hc with h | h
    · exact isDigit_ne (hd1 c h) (by decide)
    · rcases List.mem_cons.mp h with h | h
      · subst h; decide
      · exact isDigit_ne (hd2 c h) (by decide)
  simp only [parseRangeHeader]
  rw [removeAll_bytesPat_append hnb, splitDash_append_dash c2 hnd1,
      splitDash_no_dash hnd2]
  simp only [List.headD_cons, List.getElem?_cons_succ, List.getElem?_cons_zero]
  rw [if_neg h1, if_neg h2, pyIntChars_digits h1 hd1, pyIntChars_digits h2 hd2]

/-- Parse of a start-only digit range `bytes=c1-`. -/
lemma parseRangeHeader_start_only (file_size : Nat) {c1 : List Char}
    (h1 : c1 ≠ []) (hd1 : ∀ c ∈ c1, c.isDigit = true) :
    parseRangeHeader file_size (bytesPat ++ (c1 ++ ['-'])) =
      if (file_size : Int) ≤ (digitsVal c1 : Int) ∨
         ((digitsVal c1 : Int)) < 0 ∨
         (file_size : Int) ≤ (file_size : Int) - 1 ∨
         (file_size : Int) - 1 < ((digitsVal c1 : Int)) then none
      else some ((digitsVal c1 : Int), (file_size : Int) - 1) := by
  have hnd1 : ∀ c ∈ c1, c ≠ '-' := fun c hc =>
    isDigit_ne (hd1 c hc) (by decide)
  have hnb : ∀ c ∈ c1 ++ ['-'], c ≠ 'b' := by
    intro c hc
    rcases List.mem_append.mp hc with h | h
    · exact isDigit_ne (hd1 c h) (by decide)
    · rcases List.mem_cons.mp h with h | h
      · subst h; decide
      · simp at h
  simp only [parseRangeHeader]
  rw [removeAll_bytesPat_append hnb,
      show c1 ++ ['-'] = c1 ++ '-' :: ([] : List Char) from rfl,
      splitDash_append_dash [] hnd1]
  simp only [splitDash, List.headD_cons, List.getElem?_cons_succ,
    List.getElem?_cons_zero]
  rw [if_neg h1, pyIntChars_digits h1 hd1]
  simp

/-- Parse of a suffix-form digit range `bytes=-c2`: the empty start
component is taken as `0` and `c2` as the end position. -/
lemma parseRangeHeader_suffix (file_size : Nat) {c2 : List Char}
    (h2 : c2 ≠ []) (hd2 : ∀ c ∈ c2, c.isDigit = true) :
    parseRangeHeader file_size (bytesPat ++ '-' :: c2) =
      if (file_size : Int) ≤ 0 ∨ (0 : Int) < 0 ∨
         (file_size : Int) ≤ (digitsVal c2 : Int) ∨
         ((digitsVal c2 : Int)) < 0 then none
      else some (0, (digitsVal c2 : Int)) := by
  have hnd2 : ∀ c ∈ c2, c ≠ '-' := fun c hc =>
    isDigit_ne (hd2 c hc) (by decide)
  have hnb : ∀ c ∈ '-' :: c2, c ≠ 'b' := by
    intro c hc
    rcases List.mem_cons.mp hc with h | h
    · subst h; decide
    · exact isDigit_ne (hd2 c h) (by decide)
  simp only [parseRangeHeader]
  rw [removeAll_bytesPat_append hnb,
      show ('-' :: c2 : List Char) = [] ++ '-' :: c2 from rfl,
      splitDash_append_dash c2 (by simp), splitDash_no_dash hnd2]
  simp only [List.headD_cons, List.getElem?_cons_succ, List.getElem?_cons_zero]
  rw [if_neg h2, pyIntChars_digits h2 hd2]
  simp

end StreamingLemmas

/-- C9: for an existing video file of size `S`: absent a range header the
response is `200` with the full length; a range whose (digit) start is at
or beyond `S` (such as `bytes=999999-` on a smaller file) is `416`; a
non-numeric range value is `416`; a (digit) end at or beyond `S` is `416`;
a (digit) start greater than the (digit) end is `416`; and a well-formed
in-bounds digit range is `206` with a `Content-Range` header and the
matching content length.  (A parsed negative start is also rejected by the
code's `start < 0` check, but no header can produce one: every `-` is
consumed by the split, so the claim's negative-start case is vacuous.) -/
theorem c9_range_responses (file_size : Nat) :
    (StreamingUtils.get_video_file_response true file_size none =
      .ok { content_length := (file_size : Int), status_code := 200 }) ∧
    (∀ c1 : List Char, c1 ≠ [] → (∀ c ∈ c1, c.isDigit = true) →
      file_size ≤ StreamingUtils.digitsVal c1 →
      StreamingUtils.get_video_file_response true file_size
        (some (StreamingUtils.bytesPat ++ (c1 ++ ['-']))) = .error 416) ∧
    (StreamingUtils.get_video_file_response true file_size
      (some (StreamingUtils.bytesPat ++ ['a', 'b', 'c', '-', 'd', 'e', 'f'])) =
      .error 416) ∧
    (∀ c1 c2 : List Char, c1 ≠ [] → (∀ c ∈ c1, c.isDigit = true) →
      c2 ≠ [] → (∀ c ∈ c2, c.isDigit = true) →
      file_size ≤ StreamingUtils.digitsVal c2 →
      StreamingUtils.get_video_file_response true file_size
        (some (StreamingUtils.bytesPat ++ (c1 ++ '-' :: c2))) = .error 416) ∧
    (∀ c1 c2 : List Char, c1 ≠ [] → (∀ c ∈ c1, c.isDigit = true) →
      c2 ≠ [] → (∀ c ∈ c2, c.isDigit = true) →
      StreamingUtils.digitsVal c2 < StreamingUtils.digitsVal c1 →
      StreamingUtils.get_video_file_response true file_size
        (some (StreamingUtils.bytesPat ++ (c1 ++ '-' :: c2))) = .error 416) ∧
    (∀ c1 c2 : List Char, c1 ≠ [] → (∀ c ∈ c1, c.isDigit = true) →
      c2 ≠ [] → (∀ c ∈ c2, c.isDigit = true) →
      StreamingUtils.digitsVal c1 ≤ StreamingUtils.digitsVal c2 →
      StreamingUtils.digitsVal c2 < file_size →
      StreamingUtils.get_video_file_response true file_size
        (some (StreamingUtils.bytesPat ++ (c1 ++ '-' :: c2))) =
        .ok { content_length := (StreamingUtils.digitsVal c2 : Int) -
                (StreamingUtils.digitsVal c1 : Int) + 1,
              content_range := some ("bytes " ++
                toString ((StreamingUtils.digitsVal c1 : Nat) : Int) ++ "-" ++
                toString ((StreamingUtils.digitsVal c2 : Nat) : Int) ++ "/" ++
                toString file_size),
              status_code := 206 }) := by
  refine ⟨rfl, ?_, rfl, ?_, ?_, ?_⟩
  · intro c1 h1 hd1 hge
    rw [get_video_file_response_some,
        parseRangeHeader_start_only file_size h1 hd1, if_pos]
    omega
  · intro c1 c2 h1 hd1 h2 hd2 hge
    rw [get_video_file_response_some,
        parseRangeHeader_two file_size h1 hd1 h2 hd2, if_pos]
    omega
  · intro c1 c2 h1 hd1 h2 hd2 hlt
    rw [get_video_file_response_some,
        parseRangeHeader_two file_size h1 hd1 h2 hd2, if_pos]
    omega
  · intro c1 c2 h1 hd1 h2 hd2 hle hlt
    rw [get_video_file_response_some,
        parseRangeHeader_two file_size h1 hd1 h2 hd2, if_neg]
    omega

/-- C9 witness: on a 100-byte file, `bytes=999999-`, `bytes=0-150` and
`bytes=50-10` are `416`, and `bytes=10-49` is `206` with
`Content-Range: bytes 10-49/100` and length 40. -/
theorem c9_range_responses_witness :
    StreamingUtils.get_video_file_response true 100
      (some (StreamingUtils.bytesPat ++
        (['9', '9', '9', '9', '9', '9'] ++ ['-']))) = .error 416 ∧
    StreamingUtils.get_video_file_response true 100
      (some (StreamingUtils.bytesPat ++ (['0'] ++ '-' :: ['1', '5', '0']))) =
      .error 416 ∧
    StreamingUtils.get_video_file_response true 100
      (some (StreamingUtils.bytesPat ++ (['5', '0'] ++ '-' :: ['1', '0']))) =
      .error 416 ∧
    StreamingUtils.get_video_file_response true 100
      (some (StreamingUtils.bytesPat ++ (['1', '0'] ++ '-' :: ['4', '9']))) =
      .ok { content_length := 40, content_range := some "bytes 10-49/100",
            status_code := 206 } :=
  ⟨(c9_range_responses 100).2.1 ['9', '9', '9', '9', '9', '9']
      (by decide) (by decide) (by decide),
   (c9_range_responses 100).2.2.2.1 ['0'] ['1', '5', '0']
      (by decide) (by decide) (by decide) (by decide) (by decide),
   (c9_range_responses 100).2.2.2.2.1 ['5', '0'] ['1', '0']
      (by decide) (by decide) (by decide) (by decide) (by decide),
   (c9_range_responses 100).2.2.2.2.2 ['1', '0'] ['4', '9']
      (by decide) (by decide) (by decide) (by decide) (by decide) (by decide)⟩

/-- C10: for an existing file of size `S` and a suffix-form header
`bytes=-N` (digit string `c2` of value `N < S`), the parser takes the empty
start as `0` and `N` as the end, answering `206` with
`Content-Range: bytes 0-N/S` and content length `N + 1` — the first
`N + 1` bytes, not the last `N` bytes of HTTP suffix-range semantics. -/
theorem c10_suffix_range (file_size : Nat) (c2 : List Char) (h2 : c2 ≠ [])
    (hd2 : ∀ c ∈ c2, c.isDigit = true)
    (hlt : StreamingUtils.digitsVal c2 < file_size) :
    StreamingUtils.get_video_file_response true file_size
        (some (StreamingUtils.bytesPat ++ '-' :: c2)) =
      .ok { content_length := (StreamingUtils.digitsVal c2 : Int) + 1,
            content_range := some ("bytes 0-" ++
              toString ((StreamingUtils.digitsVal c2 : Nat) : Int) ++ "/" ++
              toString file_size),
            status_code := 206 } := by
  have hmain : StreamingUtils.get_video_file_response true file_size
      (some (StreamingUtils.bytesPat ++ '-' :: c2)) =
      .ok { content_length := (StreamingUtils.digitsVal c2 : Int) - 0 + 1,
            content_range := some ("bytes " ++ toString (0 : Int) ++ "-" ++
              toString ((StreamingUtils.digitsVal c2 : Nat) : Int) ++ "/" ++
              toString file_size),
            status_code := 206 } := by
    rw [get_video_file_response_some,
        parseRangeHeader_suffix file_size h2 hd2, if_neg]
    omega
  rw [hmain,
      show ((StreamingUtils.digitsVal c2 : Int) - 0 + 1) =
        (StreamingUtils.digitsVal c2 : Int) + 1 from by omega,
      show ("bytes " ++ toString (0 : Int) ++ "-") = "bytes 0-" from rfl]

/-- C10 witness: `bytes=-42` on a 100-byte file answers `206` with
`Content-Range: bytes 0-42/100` and content length 43. -/
theorem c10_suffix_range_witness :
    StreamingUtils.get_video_file_response true 100
        (some (StreamingUtils.bytesPat ++ '-' :: ['4', '2'])) =
      .ok { content_length := 43, content_range := some "bytes 0-42/100",
            status_code := 206 } :=
  c10_suffix_range 100 ['4', '2'] (by decide) (by decide) (by decide)

end TeacherFlow
